import Mathlib

/-!
Verification of the AI-Smart-Trip-Planner client code.

The definitions below are shallow embeddings of the client-side logic of the
repository:

* the axios response interceptor with JWT auto-refresh
  (mobile api client, `api.interceptors.response`), modelled as a transition
  system over the module-level mutable state `isRefreshing` / `failedQueue`
  plus the AsyncStorage credential store;
* the two awaited `AsyncStorage.setItem` writes of the refresh-success path,
  modelled at the granularity of single awaited operations so that the
  cooperative interleaving of a concurrent credential reader is visible;
* the `sortedResults` computation of `FlightResultsScreen` and
  `HotelResultsScreen` in their default `score` mode, modelled as the unique
  stable sort determined by the JS comparator
  `(b.total_utility || 0) - (a.total_utility || 0)`;
* the `TravelChat` component's `sendMessage` and `handleConfirmPlan`
  callbacks, modelled as pure functions from the pre-call React state and the
  server response to the post-call state together with the externally visible
  effects (whether a network request was issued, how often the planning
  endpoint was called);
* `useAuthStore.logout`.

JS numbers are modelled as rationals, JS strings as `String`, absent or
`null`/`undefined` values as `Option`.
-/

namespace Trip

/-! ### Credential storage (AsyncStorage, keys AUTH_TOKEN / REFRESH_TOKEN / USER_DATA) -/

structure Storage where
  authToken : Option String
  refreshToken : Option String
  userData : Option String
deriving DecidableEq

/-- `AsyncStorage.multiRemove([AUTH_TOKEN, REFRESH_TOKEN, USER_DATA])`. -/
def clearStorage : Storage := ⟨none, none, none⟩

/-! ### Session token coordinator (axios response interceptor)

The interceptor keeps two module-level variables, `isRefreshing : boolean`
and `failedQueue : Array`, and handles a 401 response as follows: a request
whose `_retry` flag is already set is rejected outright; while a refresh is
in flight every further 401 pushes a waiter onto `failedQueue`; otherwise the
handler sets `_retry` and `isRefreshing` and performs the refresh.  On
success both tokens are stored, `processQueue` resolves the waiters in FIFO
order with the new access token (each reissues its original request), and the
triggering request is reissued last.  On failure (including a missing stored
refresh token, which skips the external call) `processQueue` rejects every
waiter with the refresh error, the three storage keys are removed, and
`isRefreshing` is reset by the `finally` block.

`Sys` is that state; one `Ev` is one atomic segment of handler execution
between suspension points.  `refreshCalls` counts the external
`axios.post(refresh)` invocations; `reissueLog` records the order in which
requests are reissued; `outcomes` records the final disposition of each
request id (latest entry first). -/

inductive Outcome
  | pending
  | reissued (tok : String)
  | rejected
deriving DecidableEq

structure Sys where
  isRefreshing : Bool
  failedQueue : List Nat
  refreshOwner : Option Nat
  storage : Storage
  refreshCalls : Nat
  outcomes : List (Nat × Outcome)
  reissueLog : List Nat
deriving DecidableEq

/-- Latest recorded outcome of request `rid` (entries are consed at the front). -/
def findOutcome (rid : Nat) : List (Nat × Outcome) → Option Outcome
  | [] => none
  | p :: ps => if p.1 = rid then some p.2 else findOutcome rid ps

/-- `processQueue`: walk the queue in FIFO order, giving every waiter the same
disposition `o` (resolve-with-token on refresh success, reject on failure). -/
def drain (o : Outcome) : List Nat → List (Nat × Outcome) → List (Nat × Outcome)
  | [], out => out
  | q :: qs, out => drain o qs ((q, o) :: out)

/-- The synchronous part of the 401 branch of the response interceptor, for a
request `rid` whose `_retry` flag is `retry`. -/
def on401 (rid : Nat) (retry : Bool) (s : Sys) : Sys :=
  if retry then
    { s with outcomes := (rid, Outcome.rejected) :: s.outcomes }
  else if s.isRefreshing then
    { s with failedQueue := s.failedQueue ++ [rid],
             outcomes := (rid, Outcome.pending) :: s.outcomes }
  else
    { s with isRefreshing := true, refreshOwner := some rid,
             outcomes := (rid, Outcome.pending) :: s.outcomes }

/-- The `catch` block of the refresh attempt: reject all waiters, remove the
three stored keys, reset `isRefreshing` (the `finally` block). -/
def refreshFailurePath (owner : Nat) (s : Sys) : Sys :=
  { s with isRefreshing := false, refreshOwner := none, failedQueue := [],
           storage := clearStorage,
           outcomes := (owner, Outcome.rejected) :: drain Outcome.rejected s.failedQueue s.outcomes }

/-- Resolution of an in-flight refresh attempt.  Reading a missing refresh
token throws before the external call is made; otherwise the external
refresh call happens (counted) and resolves to `res`: new token pair on
success, `none` on failure. -/
def refreshResolved (res : Option (String × String)) (s : Sys) : Sys :=
  match s.refreshOwner with
  | none => s
  | some owner =>
    match s.storage.refreshToken with
    | none => refreshFailurePath owner s
    | some _ =>
      let s1 : Sys := { s with refreshCalls := s.refreshCalls + 1 }
      match res with
      | none => refreshFailurePath owner s1
      | some (a, r) =>
        { s1 with isRefreshing := false, refreshOwner := none, failedQueue := [],
                  storage := { s.storage with authToken := some a, refreshToken := some r },
                  outcomes := (owner, Outcome.reissued a) ::
                    drain (Outcome.reissued a) s.failedQueue s.outcomes,
                  reissueLog := s.reissueLog ++ s.failedQueue ++ [owner] }

inductive Ev
  | fail401 (rid : Nat) (retry : Bool)
  | resolve (res : Option (String × String))

def step : Ev → Sys → Sys
  | Ev.fail401 rid retry, s => on401 rid retry s
  | Ev.resolve res, s => refreshResolved res s

def run : List Ev → Sys → Sys
  | [], s => s
  | e :: evs, s => run evs (step e s)

/-! ### The refresh-success storage writes, at awaited-operation granularity

On refresh success the interceptor executes
`await AsyncStorage.setItem(AUTH_TOKEN, newAccessToken)` and then
`await AsyncStorage.setItem(REFRESH_TOKEN, newRefreshToken)`: two separate
awaited writes with a suspension point between them.  A concurrent reader of
the credential pair (the request interceptor's `getItem`, or
`restoreSession`'s `multiGet`) can be scheduled before, between, or after the
two writes.  `microRun` executes such a schedule, recording every
observation a reader makes. -/

inductive MicroStep
  | writeAuth
  | writeRefresh
  | readPair
deriving DecidableEq

def microRun (a1 r1 : String) :
    List MicroStep → Storage → List (Option String × Option String) →
    Storage × List (Option String × Option String)
  | [], st, obs => (st, obs)
  | MicroStep.writeAuth :: rest, st, obs =>
      microRun a1 r1 rest { st with authToken := some a1 } obs
  | MicroStep.writeRefresh :: rest, st, obs =>
      microRun a1 r1 rest { st with refreshToken := some r1 } obs
  | MicroStep.readPair :: rest, st, obs =>
      microRun a1 r1 rest st (obs ++ [(st.authToken, st.refreshToken)])

/-- The write subsequence is fixed by the code (`authToken` first, then
`refreshToken`); a single reader may interleave at any of the three points. -/
def writeSchedules : List (List MicroStep) :=
  [[MicroStep.readPair, MicroStep.writeAuth, MicroStep.writeRefresh],
   [MicroStep.writeAuth, MicroStep.readPair, MicroStep.writeRefresh],
   [MicroStep.writeAuth, MicroStep.writeRefresh, MicroStep.readPair]]

/-! ### Result ranking (FlightResultsScreen / HotelResultsScreen, `score` mode)

Both screens compute `sortedResults` by copying the result array and calling
`Array.prototype.sort` with, in the default `score` mode, the comparator
`(b.goal_evaluation?.total_utility || 0) - (a.goal_evaluation?.total_utility || 0)`
(flights) resp. `(b.utility_score?.total_score || 0) - (a.utility_score?.total_score || 0)`
(hotels).  ECMAScript requires `sort` to be stable; with a consistent
comparator its result is therefore the unique stable reordering that is
non-increasing in the comparator key, which `List.insertionSort` with the
reflexive-total relation `keyDescRel` computes.  Only the fields the
comparator reads, plus `price`, are carried. -/

structure FlightR where
  id : Nat
  price : ℚ
  utility : Option ℚ
deriving DecidableEq

structure HotelR where
  id : Nat
  pricePerNight : ℚ
  utility : Option ℚ
deriving DecidableEq

/-- `f.goal_evaluation?.total_utility || 0`. -/
def scoreKey (f : FlightR) : ℚ := f.utility.getD 0

/-- `h.utility_score?.total_score || 0`. -/
def hotelScoreKey (h : HotelR) : ℚ := h.utility.getD 0

/-- `a` may precede `b` under the screens' comparator: `key b ≤ key a`. -/
def keyDescRel (key : α → ℚ) (a b : α) : Prop := key b ≤ key a

instance (key : α → ℚ) : DecidableRel (keyDescRel key) :=
  fun a b => inferInstanceAs (Decidable (key b ≤ key a))

instance (key : α → ℚ) : IsTotal α (keyDescRel key) :=
  ⟨fun a b => (le_total (key a) (key b)).symm⟩

instance (key : α → ℚ) : IsTrans α (keyDescRel key) :=
  ⟨fun _ _ _ hab hbc => le_trans hbc hab⟩

/-- `FlightResultsScreen.sortedResults` in `score` mode. -/
def sortedResultsScore (l : List FlightR) : List FlightR :=
  List.insertionSort (keyDescRel scoreKey) l

/-- `HotelResultsScreen.sortedResults` in `score` mode. -/
def hotelSortedResultsScore (l : List HotelR) : List HotelR :=
  List.insertionSort (keyDescRel hotelScoreKey) l

/-- Modelled from the spec: the ranking rule of section 4.2, "sort candidates
by totalUtility descending; ties broken by ascending price, then by the
collaborator-assigned result order (stable sort)".  Used only to compare the
spec's claimed ranking with the one the screens compute. -/
def specDescPriceRel (key price : α → ℚ) (a b : α) : Prop :=
  key b < key a ∨ (key b = key a ∧ price a ≤ price b)

instance (key price : α → ℚ) : DecidableRel (specDescPriceRel key price) :=
  fun a b =>
    inferInstanceAs (Decidable (key b < key a ∨ (key b = key a ∧ price a ≤ price b)))

/-- Modelled from the spec: the displayed flight ranking as section 4.2 words
it (utility descending, ties by ascending price, then original order). -/
def specRankingFlights (l : List FlightR) : List FlightR :=
  List.insertionSort (specDescPriceRel scoreKey FlightR.price) l

/-! ### Utility scoring engine (spec-modelled)

Modelled from the spec: the server-side `UtilityScoringEngine` of section 4.2
is not under the visible source tree; only its output data contract
(`GoalEvaluation` in the mobile `types/index.ts`: `total_utility`,
`budget_constraint_met`, component scores, `recommendation`) is.  The
definitions below follow the spec's flight-scoring formulas and tier rule
verbatim; the rank-based fallbacks for absent preferences take the
already-normalized rank as an argument, as the rank is computed from the
whole result set. -/

structure GoalProfile where
  budgetMax : Option ℚ
  preferredDurationMinutes : Option ℚ
  wPrice : ℚ
  wDuration : ℚ
  wStops : ℚ
deriving DecidableEq

structure FlightCandidate where
  price : ℚ
  durationMinutes : ℚ
  stops : Nat
deriving DecidableEq

inductive Tier
  | excellent
  | good
  | fair
  | poor
deriving DecidableEq

def clampQ (x lo hi : ℚ) : ℚ := max lo (min x hi)

/-- Modelled from the spec: `clamp(1 − price / (budgetMax × 1.5), 0, 1)` when
`budgetMax` is set, else `1 − normalizedPriceRank`. -/
def priceScore (g : GoalProfile) (c : FlightCandidate) (normalizedPriceRank : ℚ) : ℚ :=
  match g.budgetMax with
  | some b => clampQ (1 - c.price / (b * (3 / 2))) 0 1
  | none => 1 - normalizedPriceRank

/-- Modelled from the spec: `clamp(1 − |duration − preferredDuration| /
preferredDuration, 0, 1)` when the preference is set, else
`1 − normalizedDurationRank`. -/
def durationScore (g : GoalProfile) (c : FlightCandidate) (normalizedDurationRank : ℚ) : ℚ :=
  match g.preferredDurationMinutes with
  | some d => clampQ (1 - |c.durationMinutes - d| / d) 0 1
  | none => 1 - normalizedDurationRank

/-- Modelled from the spec: `1 / (1 + stops)`. -/
def stopsScore (c : FlightCandidate) : ℚ := 1 / (1 + (c.stops : ℚ))

/-- Modelled from the spec: `budgetMax is null OR price ≤ budgetMax`. -/
def budgetConstraintMet (g : GoalProfile) (c : FlightCandidate) : Bool :=
  match g.budgetMax with
  | none => true
  | some b => decide (c.price ≤ b)

/-- Modelled from the spec: the tier rule, first match wins:
no budget fit → poor; `≥ 0.8` → excellent; `≥ 0.6` → good; `≥ 0.4` → fair;
else poor. -/
def recommendation (met : Bool) (u : ℚ) : Tier :=
  if met = false then Tier.poor
  else if 4 / 5 ≤ u then Tier.excellent
  else if 3 / 5 ≤ u then Tier.good
  else if 2 / 5 ≤ u then Tier.fair
  else Tier.poor

structure ScoreBreakdown where
  priceScoreVal : ℚ
  durationScoreVal : ℚ
  stopsScoreVal : ℚ
  totalUtilityVal : ℚ
  budgetConstraintMetVal : Bool
  recommendationVal : Tier
deriving DecidableEq

/-- Modelled from the spec: `score(candidate, goalProfile) → ScoreBreakdown`,
with `totalUtility = Σ weight[c] × componentScore[c]`. -/
def score (g : GoalProfile) (c : FlightCandidate)
    (normalizedPriceRank normalizedDurationRank : ℚ) : ScoreBreakdown :=
  let ps := priceScore g c normalizedPriceRank
  let ds := durationScore g c normalizedDurationRank
  let ss := stopsScore c
  let u := g.wPrice * ps + g.wDuration * ds + g.wStops * ss
  { priceScoreVal := ps, durationScoreVal := ds, stopsScoreVal := ss,
    totalUtilityVal := u,
    budgetConstraintMetVal := budgetConstraintMet g c,
    recommendationVal := recommendation (budgetConstraintMet g c) u }

/-! ### TravelChat (frontend conversational component)

`sendMessage` and `handleConfirmPlan` are async event handlers over React
state.  Each is modelled as a pure function from the pre-call state and the
server response (`none` models a thrown `fetch`) to the post-call state plus
its externally visible effect.  Message timestamps, voice features and the
scroll ref do not affect the modelled state and are omitted. -/

/-- Leading-whitespace removal on a character list. -/
def dropWhitespaceLead : List Char → List Char
  | [] => []
  | c :: cs => if c.isWhitespace then dropWhitespaceLead cs else c :: cs

/-- `text.trim()` of JS: remove leading and trailing whitespace.  (Defined
structurally over the character list so that it evaluates by kernel
reduction; `String.trim` computes the same result through substring
primitives.) -/
def jsTrim (s : String) : String :=
  String.mk ((dropWhitespaceLead (dropWhitespaceLead s.data).reverse).reverse)

inductive Role
  | user
  | assistant
  | system
deriving DecidableEq

structure ChatMessage where
  role : Role
  content : String
deriving DecidableEq

structure ExtractedParams where
  origin : Option String
  destination : Option String
  departureDate : Option String
  returnDate : Option String
  passengers : Option Nat
  budget : Option ℚ
  cuisine : Option String
deriving DecidableEq

/-- The `{}` written when the response carries no `extracted_params`. -/
def emptyParams : ExtractedParams := ⟨none, none, none, none, none, none, none⟩

structure ChatState where
  messages : List ChatMessage
  input : String
  loading : Bool
  planning : Bool
  extractedParams : ExtractedParams
  paramsComplete : Bool
deriving DecidableEq

/-- Response body of `POST /api/agents/chat` with `confirmed: false`. -/
structure ChatResponse where
  success : Bool
  reply : String
  extractedParams : Option ExtractedParams
  paramsComplete : Option Bool
  error : String
deriving DecidableEq

/-- Whether `sendMessage` issued a network request. -/
inductive SendEffect
  | noRequest
  | chatRequest
deriving DecidableEq

def networkErrorReply : String :=
  "Sorry, I could not reach the server. Please try again."

def serverErrorReply (e : String) : String :=
  "Sorry, I encountered an error: " ++ e ++ ". Please try again."

/-- `TravelChat.sendMessage`.  An empty/whitespace `text` returns before any
state change or request (the guard at the top of the handler).  Otherwise the user
turn is appended and the request issued; on a successful response the reply
is appended and `extractedParams` / `paramsComplete` are overwritten with
`data.extracted_params || {}` / `data.params_complete || false`; on an
application error or a network failure only an error message is appended.
`loading` is reset by the `finally` block. -/
def sendMessage (text : String) (result : Option ChatResponse) (st : ChatState) :
    ChatState × SendEffect :=
  if jsTrim text = "" then (st, SendEffect.noRequest)
  else
    let afterUser : ChatState :=
      { st with messages := st.messages ++ [⟨Role.user, jsTrim text⟩],
                input := "", loading := true }
    let final : ChatState :=
      match result with
      | none =>
          { afterUser with
              messages := afterUser.messages ++ [⟨Role.assistant, networkErrorReply⟩] }
      | some data =>
          if data.success then
            { afterUser with
                messages := afterUser.messages ++ [⟨Role.assistant, data.reply⟩],
                extractedParams := data.extractedParams.getD emptyParams,
                paramsComplete := data.paramsComplete.getD false }
          else
            { afterUser with
                messages :=
                  afterUser.messages ++ [⟨Role.assistant, serverErrorReply data.error⟩] }
    ({ final with loading := false }, SendEffect.chatRequest)

/-- Response body of `POST /api/agents/chat` with `confirmed: true`. -/
structure PlanResponse where
  success : Bool
  planningResult : Option String
  error : Option String
deriving DecidableEq

def planningStartMsg : String := "Starting AI travel planning with your parameters..."

def planSuccessMsg : String := "Your trip has been planned! Scroll down to see the full results."

def planFailedMsg (e : Option String) : String :=
  "Planning failed: " ++ e.getD "Unknown error" ++ ". Please try again."

def planNetworkErrorMsg : String := "Failed to connect to the planner. Please try again."

/-- `TravelChat.handleConfirmPlan`.  Returns the post-call state, the number
of planning requests issued during the call, and the payload handed to
`onPlanReady` (if any).  The handler has no state guard: it unconditionally
sets `planning`, appends the system message, and issues exactly one request
with `confirmed: true`; `planning` is reset by the `finally` block. -/
def handleConfirmPlan (result : Option PlanResponse) (st : ChatState) :
    ChatState × Nat × Option String :=
  let st1 : ChatState :=
    { st with planning := true,
              messages := st.messages ++ [⟨Role.system, planningStartMsg⟩] }
  match result with
  | none =>
      ({ st1 with messages := st1.messages ++ [⟨Role.assistant, planNetworkErrorMsg⟩],
                  planning := false }, 1, none)
  | some data =>
      if data.success && data.planningResult.isSome then
        ({ st1 with messages := st1.messages ++ [⟨Role.assistant, planSuccessMsg⟩],
                    planning := false }, 1, data.planningResult)
      else
        ({ st1 with messages :=
              st1.messages ++ [⟨Role.assistant, planFailedMsg data.error⟩],
                    planning := false }, 1, none)

/-- The confirm affordance is rendered only when `paramsComplete && !planning`
(and the button is additionally `disabled={planning}`). -/
def confirmButtonShown (st : ChatState) : Bool :=
  st.paramsComplete && !st.planning

/-- Event trace of the section-8 coordinator scenario: `n + 1` fresh requests
(`_retry` unset) fail with 401 in submission order, then the single in-flight
refresh resolves successfully with a new token pair. -/
def scenarioEvs (r0 : Nat) (rs : List Nat) (a newRt : String) : List Ev :=
  ((r0 :: rs).map fun r => Ev.fail401 r false) ++ [Ev.resolve (some (a, newRt))]

/-- Two flights with the same utility score where the earlier result is the
more expensive one. -/
def cexFlightA : FlightR := ⟨0, 100, some 1⟩

def cexFlightB : FlightR := ⟨1, 50, some 1⟩

/-! ### Auth store logout (`useAuthStore.logout`) -/

structure AuthState where
  user : Option String
  tokens : Option (String × String)
  isAuthenticated : Bool
  isLoading : Bool
  error : Option String
deriving DecidableEq

/-- `useAuthStore.logout`: `try { await authService.logout() } catch { /* ignore */ }`,
then `AsyncStorage.multiRemove` of the three keys, then the state reset.
`serverResult` is the server call's outcome; both branches continue into the
local clear. -/
def logout (serverResult : Except String Unit) (st : AuthState) (store : Storage) :
    AuthState × Storage :=
  match serverResult with
  | Except.ok _ =>
      ({ st with user := none, tokens := none, isAuthenticated := false, error := none },
       clearStorage)
  | Except.error _ =>
      ({ st with user := none, tokens := none, isAuthenticated := false, error := none },
       clearStorage)

/-! ## Helper lemmas -/

theorem findOutcome_drain_not_mem (o : Outcome) (rid : Nat) (qs : List Nat)
    (out : List (Nat × Outcome)) (h : rid ∉ qs) :
    findOutcome rid (drain o qs out) = findOutcome rid out := by
  induction qs generalizing out with
  | nil => rfl
  | cons q qs ih =>
    have hne : q ≠ rid := fun e => h (by simp [e])
    have h2 : rid ∉ qs := fun hm => h (List.mem_cons_of_mem _ hm)
    rw [drain, ih _ h2]
    simp [findOutcome, hne]

theorem findOutcome_drain_mem (o : Outcome) (rid : Nat) (qs : List Nat)
    (out : List (Nat × Outcome)) (h : rid ∈ qs) :
    findOutcome rid (drain o qs out) = some o := by
  induction qs generalizing out with
  | nil => cases h
  | cons q qs ih =>
    rw [drain]
    by_cases hm : rid ∈ qs
    · exact ih _ hm
    · have hq : q = rid := by
        rcases List.mem_cons.mp h with h1 | h1
        · exact h1.symm
        · exact absurd h1 hm
      rw [findOutcome_drain_not_mem _ _ _ _ hm]
      simp [findOutcome, hq]

theorem run_append (l1 l2 : List Ev) (s : Sys) :
    run (l1 ++ l2) s = run l2 (run l1 s) := by
  induction l1 generalizing s with
  | nil => rfl
  | cons e l ih => rw [List.cons_append, run, run, ih]

theorem refreshCalls_step_le (e : Ev) (s : Sys) :
    s.refreshCalls ≤ (step e s).refreshCalls := by
  cases e with
  | fail401 rid retry =>
    simp only [step, on401]
    split
    · exact le_refl _
    · split
      · exact le_refl _
      · exact le_refl _
  | resolve res =>
    simp only [step]
    rcases howner : s.refreshOwner with _ | owner
    · simp [refreshResolved, howner]
    · rcases htok : s.storage.refreshToken with _ | rt
      · simp [refreshResolved, howner, htok, refreshFailurePath]
      · rcases res with _ | ⟨a, r⟩
        · simp [refreshResolved, howner, htok, refreshFailurePath]
        · simp [refreshResolved, howner, htok]

theorem refreshCalls_le_run (evs : List Ev) (s : Sys) :
    s.refreshCalls ≤ (run evs s).refreshCalls := by
  induction evs generalizing s with
  | nil => exact le_refl _
  | cons e evs ih => exact le_trans (refreshCalls_step_le e s) (ih (step e s))

theorem step_no_refresh_token (e : Ev) (s : Sys) (h : s.storage.refreshToken = none) :
    (step e s).storage.refreshToken = none ∧ (step e s).refreshCalls = s.refreshCalls := by
  cases e with
  | fail401 rid retry =>
    simp only [step, on401]
    split
    · exact ⟨h, rfl⟩
    · split
      · exact ⟨h, rfl⟩
      · exact ⟨h, rfl⟩
  | resolve res =>
    simp only [step]
    rcases howner : s.refreshOwner with _ | owner
    · simp [refreshResolved, howner, h]
    · simp [refreshResolved, howner, h, refreshFailurePath, clearStorage]

theorem run_no_refresh_token (evs : List Ev) (s : Sys) (h : s.storage.refreshToken = none) :
    (run evs s).refreshCalls = s.refreshCalls ∧
      (run evs s).storage.refreshToken = none := by
  induction evs generalizing s with
  | nil => exact ⟨rfl, h⟩
  | cons e evs ih =>
    obtain ⟨h1, h2⟩ := step_no_refresh_token e s h
    obtain ⟨ih1, ih2⟩ := ih (step e s) h1
    exact ⟨by rw [run, ih1, h2], by rw [run]; exact ih2⟩

theorem run_enqueue (rids : List Nat) (s : Sys) (h : s.isRefreshing = true) :
    run (rids.map fun r => Ev.fail401 r false) s =
      { s with failedQueue := s.failedQueue ++ rids,
               outcomes := drain Outcome.pending rids s.outcomes } := by
  induction rids generalizing s with
  | nil => simp [run, drain]
  | cons r rs ih =>
    rw [List.map_cons, run]
    have hstep : step (Ev.fail401 r false) s =
        { s with failedQueue := s.failedQueue ++ [r],
                 outcomes := (r, Outcome.pending) :: s.outcomes } := by
      simp [step, on401, h]
    rw [hstep, ih _ (by simp [h])]
    simp [drain, List.append_assoc]

/-! ## Claim theorems -/

/-- C1: starting from an idle coordinator with an empty queue and a stored
refresh token, when a batch of fresh requests all fail with 401 and the
single refresh then succeeds, exactly one external refresh call is made (and
at no point of the trace has more than one been made), the later failures are
enqueued rather than refreshing again, every request is reissued with the new
access token, and the reissue order is the FIFO queue order followed by the
triggering request. -/
theorem coordinator_single_refresh_fifo
    (r0 : Nat) (rs : List Nat) (rt a newRt : String) (st0 : Sys)
    (hIdle : st0.isRefreshing = false) (hQ : st0.failedQueue = [])
    (hCalls : st0.refreshCalls = 0) (hLog : st0.reissueLog = [])
    (hTok : st0.storage.refreshToken = some rt) :
    (run (scenarioEvs r0 rs a newRt) st0).refreshCalls = 1 ∧
    (∀ pre suf, scenarioEvs r0 rs a newRt = pre ++ suf →
      (run pre st0).refreshCalls ≤ 1) ∧
    (run (scenarioEvs r0 rs a newRt) st0).reissueLog = rs ++ [r0] ∧
    (∀ rid ∈ r0 :: rs,
      findOutcome rid (run (scenarioEvs r0 rs a newRt) st0).outcomes =
        some (Outcome.reissued a)) ∧
    (run (scenarioEvs r0 rs a newRt) st0).isRefreshing = false := by
  have hstep0 : step (Ev.fail401 r0 false) st0 =
      { st0 with isRefreshing := true, refreshOwner := some r0,
                 outcomes := (r0, Outcome.pending) :: st0.outcomes } := by
    simp [step, on401, hIdle]
  have henq := run_enqueue rs
      ({ st0 with isRefreshing := true, refreshOwner := some r0,
                  outcomes := (r0, Outcome.pending) :: st0.outcomes }) rfl
  have hrun : run (scenarioEvs r0 rs a newRt) st0 =
      { isRefreshing := false, failedQueue := [], refreshOwner := none,
        storage := { st0.storage with authToken := some a, refreshToken := some newRt },
        refreshCalls := st0.refreshCalls + 1,
        outcomes := (r0, Outcome.reissued a) ::
          drain (Outcome.reissued a) rs
            (drain Outcome.pending rs ((r0, Outcome.pending) :: st0.outcomes)),
        reissueLog := st0.reissueLog ++ rs ++ [r0] } := by
    rw [scenarioEvs, List.map_cons, List.cons_append, run, hstep0, run_append, henq]
    simp [run, step, refreshResolved, hQ, hTok, drain]
  refine ⟨?_, ?_, ?_, ?_, ?_⟩
  · rw [hrun, hCalls]
  · intro pre suf heq
    have h1 : (run pre st0).refreshCalls ≤
        (run suf (run pre st0)).refreshCalls := refreshCalls_le_run suf _
    rw [← run_append, ← heq, hrun, hCalls] at h1
    exact h1
  · rw [hrun]
    simp [hLog]
  · intro rid hmem
    rw [hrun]
    rcases List.mem_cons.mp hmem with h1 | h1
    · simp [findOutcome, h1]
    · by_cases hr : r0 = rid
      · simp [findOutcome, hr]
      · simp only [findOutcome, hr, if_neg]
        exact findOutcome_drain_mem _ _ _ _ h1
  · rw [hrun]

/-- C1 witness: the section-8 scenario with five concrete requests. -/
theorem coordinator_single_refresh_fifo_witness :
    (run (scenarioEvs 1 [2, 3, 4, 5] "newAcc" "newRef")
        (Sys.mk false [] none ⟨some "acc0", some "ref0", some "usr"⟩ 0 [] [])).refreshCalls = 1 ∧
    (∀ pre suf, scenarioEvs 1 [2, 3, 4, 5] "newAcc" "newRef" = pre ++ suf →
      (run pre (Sys.mk false [] none ⟨some "acc0", some "ref0", some "usr"⟩ 0 [] [])).refreshCalls ≤ 1) ∧
    (run (scenarioEvs 1 [2, 3, 4, 5] "newAcc" "newRef")
        (Sys.mk false [] none ⟨some "acc0", some "ref0", some "usr"⟩ 0 [] [])).reissueLog = [2, 3, 4, 5] ++ [1] ∧
    (∀ rid ∈ 1 :: [2, 3, 4, 5],
      findOutcome rid (run (scenarioEvs 1 [2, 3, 4, 5] "newAcc" "newRef")
        (Sys.mk false [] none ⟨some "acc0", some "ref0", some "usr"⟩ 0 [] [])).outcomes =
        some (Outcome.reissued "newAcc")) ∧
    (run (scenarioEvs 1 [2, 3, 4, 5] "newAcc" "newRef")
        (Sys.mk false [] none ⟨some "acc0", some "ref0", some "usr"⟩ 0 [] [])).isRefreshing = false :=
  coordinator_single_refresh_fifo 1 [2, 3, 4, 5] "ref0" "newAcc" "newRef"
    (Sys.mk false [] none ⟨some "acc0", some "ref0", some "usr"⟩ 0 [] [])
    rfl rfl rfl rfl rfl

/-- C2: when an in-flight refresh fails, the coordinator returns to idle with
an empty queue, every waiter that was queued is rejected (as is the request
that triggered the refresh), all three stored credentials are removed, and no
later event of the session can ever make another external refresh call (the
model has no login event). -/
theorem refresh_failure_terminal
    (s : Sys) (o : Nat) (rt : String)
    (hOwn : s.refreshOwner = some o) (hTok : s.storage.refreshToken = some rt) :
    (refreshResolved none s).isRefreshing = false ∧
    (refreshResolved none s).failedQueue = [] ∧
    (refreshResolved none s).storage = clearStorage ∧
    findOutcome o (refreshResolved none s).outcomes = some Outcome.rejected ∧
    (∀ q ∈ s.failedQueue,
      findOutcome q (refreshResolved none s).outcomes = some Outcome.rejected) ∧
    (∀ evs, (run evs (refreshResolved none s)).refreshCalls =
      (refreshResolved none s).refreshCalls) := by
  have hres : refreshResolved none s =
      { s with isRefreshing := false, refreshOwner := none, failedQueue := [],
               storage := clearStorage, refreshCalls := s.refreshCalls + 1,
               outcomes := (o, Outcome.rejected) ::
                 drain Outcome.rejected s.failedQueue s.outcomes } := by
    simp [refreshResolved, hOwn, hTok, refreshFailurePath]
  refine ⟨by rw [hres], by rw [hres], by rw [hres], by rw [hres]; simp [findOutcome], ?_, ?_⟩
  · intro q hq
    rw [hres]
    by_cases ho : o = q
    · simp [findOutcome, ho]
    · simp only [findOutcome, ho, if_neg]
      exact findOutcome_drain_mem _ _ _ _ hq
  · intro evs
    exact (run_no_refresh_token evs _ (by rw [hres]; rfl)).1

/-- C2 witness: a concrete refreshing state with two queued waiters. -/
theorem refresh_failure_terminal_witness :
    (Sys.mk true [7, 8] (some 5) ⟨some "at", some "rt", some "ud"⟩ 0 [] []).refreshOwner = some 5 ∧
    (refreshResolved none (Sys.mk true [7, 8] (some 5) ⟨some "at", some "rt", some "ud"⟩ 0 [] [])).isRefreshing = false ∧
    (refreshResolved none (Sys.mk true [7, 8] (some 5) ⟨some "at", some "rt", some "ud"⟩ 0 [] [])).failedQueue = [] ∧
    (refreshResolved none (Sys.mk true [7, 8] (some 5) ⟨some "at", some "rt", some "ud"⟩ 0 [] [])).storage = clearStorage ∧
    findOutcome 5 (refreshResolved none (Sys.mk true [7, 8] (some 5) ⟨some "at", some "rt", some "ud"⟩ 0 [] [])).outcomes = some Outcome.rejected ∧
    (∀ q ∈ [7, 8],
      findOutcome q (refreshResolved none (Sys.mk true [7, 8] (some 5) ⟨some "at", some "rt", some "ud"⟩ 0 [] [])).outcomes = some Outcome.rejected) ∧
    (∀ evs, (run evs (refreshResolved none (Sys.mk true [7, 8] (some 5) ⟨some "at", some "rt", some "ud"⟩ 0 [] []))).refreshCalls =
      (refreshResolved none (Sys.mk true [7, 8] (some 5) ⟨some "at", some "rt", some "ud"⟩ 0 [] [])).refreshCalls) := by
  have h := refresh_failure_terminal
    (Sys.mk true [7, 8] (some 5) ⟨some "at", some "rt", some "ud"⟩ 0 [] []) 5 "rt" rfl rfl
  exact ⟨rfl, h.1, h.2.1, h.2.2.1, h.2.2.2.1, h.2.2.2.2.1, h.2.2.2.2.2⟩

/-- C3 counterexample: with stored pair (acc0, ref0), a reader scheduled
between the two awaited `setItem` writes of the refresh-success path observes
(acc1, ref0) — the new access token paired with the old refresh token — which
is neither the wholly-old nor the wholly-new credential pair, so the
replacement is observably non-atomic. -/
theorem token_write_interleaving_cex :
    (microRun "acc1" "ref1" [MicroStep.writeAuth, MicroStep.readPair, MicroStep.writeRefresh]
        ⟨some "acc0", some "ref0", some "usr"⟩ []).2 = [(some "acc1", some "ref0")] ∧
    (microRun "acc1" "ref1" [MicroStep.writeAuth, MicroStep.readPair, MicroStep.writeRefresh]
        ⟨some "acc0", some "ref0", some "usr"⟩ []).1 = ⟨some "acc1", some "ref1", some "usr"⟩ ∧
    ((some "acc1", some "ref0") : Option String × Option String) ≠ (some "acc0", some "ref0") ∧
    ((some "acc1", some "ref0") : Option String × Option String) ≠ (some "acc1", some "ref1") := by
  refine ⟨rfl, rfl, by decide, by decide⟩

/-- C3 amended: the refresh-success path performs the two token writes in a
fixed order (access token first) with a suspension point between them; after
the schedule runs both tokens are replaced and user data is untouched, and a
reader observes one of the three pairs old/old, new-access/old-refresh, or
new/new — never old-access/new-refresh — but the mixed new/old pair is
observable, so the replacement is not atomic as claimed. -/
theorem token_write_replacement_shape
    (st0 : Storage) (a1 r1 : String) (sched : List MicroStep)
    (h : sched ∈ writeSchedules) :
    (microRun a1 r1 sched st0 []).1.authToken = some a1 ∧
    (microRun a1 r1 sched st0 []).1.refreshToken = some r1 ∧
    (microRun a1 r1 sched st0 []).1.userData = st0.userData ∧
    ∀ ob ∈ (microRun a1 r1 sched st0 []).2,
      ob = (st0.authToken, st0.refreshToken) ∨
      ob = (some a1, st0.refreshToken) ∨
      ob = (some a1, some r1) := by
  simp only [writeSchedules, List.mem_cons, List.not_mem_nil, or_false] at h
  rcases h with h | h | h <;> subst h <;> simp [microRun]

/-- C3 amended witness: the read-between-writes schedule on a concrete store. -/
theorem token_write_replacement_shape_witness :
    [MicroStep.writeAuth, MicroStep.readPair, MicroStep.writeRefresh] ∈ writeSchedules ∧
    ((microRun "acc1" "ref1" [MicroStep.writeAuth, MicroStep.readPair, MicroStep.writeRefresh]
        ⟨some "acc0", some "ref0", some "usr"⟩ []).1.authToken = some "acc1" ∧
     (microRun "acc1" "ref1" [MicroStep.writeAuth, MicroStep.readPair, MicroStep.writeRefresh]
        ⟨some "acc0", some "ref0", some "usr"⟩ []).1.refreshToken = some "ref1" ∧
     (microRun "acc1" "ref1" [MicroStep.writeAuth, MicroStep.readPair, MicroStep.writeRefresh]
        ⟨some "acc0", some "ref0", some "usr"⟩ []).1.userData =
       (⟨some "acc0", some "ref0", some "usr"⟩ : Storage).userData ∧
     ∀ ob ∈ (microRun "acc1" "ref1" [MicroStep.writeAuth, MicroStep.readPair, MicroStep.writeRefresh]
        ⟨some "acc0", some "ref0", some "usr"⟩ []).2,
       ob = ((⟨some "acc0", some "ref0", some "usr"⟩ : Storage).authToken,
             (⟨some "acc0", some "ref0", some "usr"⟩ : Storage).refreshToken) ∨
       ob = (some "acc1", (⟨some "acc0", some "ref0", some "usr"⟩ : Storage).refreshToken) ∨
       ob = (some "acc1", some "ref1")) :=
  ⟨by decide,
   token_write_replacement_shape ⟨some "acc0", some "ref0", some "usr"⟩ "acc1" "ref1"
     [MicroStep.writeAuth, MicroStep.readPair, MicroStep.writeRefresh] (by decide)⟩

theorem filter_orderedInsert_of_key_eq (key : α → ℚ) (c : ℚ) (x : α) (hx : key x = c)
    (l : List α) :
    (List.orderedInsert (keyDescRel key) x l).filter (fun y => decide (key y = c)) =
      x :: l.filter (fun y => decide (key y = c)) := by
  induction l with
  | nil => simp [List.orderedInsert, hx]
  | cons y ys ih =>
    rw [List.orderedInsert]
    by_cases hr : keyDescRel key x y
    · rw [if_pos hr]
      simp [hx]
    · rw [if_neg hr]
      have hy : ¬ key y = c := fun hyc => hr (le_of_eq (hyc.trans hx.symm))
      simp [List.filter_cons, hy, ih]

theorem filter_orderedInsert_of_key_ne (key : α → ℚ) (c : ℚ) (x : α) (hx : ¬ key x = c)
    (l : List α) :
    (List.orderedInsert (keyDescRel key) x l).filter (fun y => decide (key y = c)) =
      l.filter (fun y => decide (key y = c)) := by
  induction l with
  | nil => simp [List.orderedInsert, hx]
  | cons y ys ih =>
    rw [List.orderedInsert]
    by_cases hr : keyDescRel key x y
    · rw [if_pos hr]
      simp [List.filter_cons, hx]
    · rw [if_neg hr]
      simp [List.filter_cons, ih]

/-- Stability of the modelled `Array.prototype.sort`: filtering the sorted
list down to any one key value yields exactly the input's elements with that
key, in their original order. -/
theorem filter_insertionSort_key (key : α → ℚ) (c : ℚ) (l : List α) :
    (List.insertionSort (keyDescRel key) l).filter (fun y => decide (key y = c)) =
      l.filter (fun y => decide (key y = c)) := by
  induction l with
  | nil => rfl
  | cons x xs ih =>
    rw [List.insertionSort]
    by_cases hx : key x = c
    · rw [filter_orderedInsert_of_key_eq key c x hx, ih]
      simp [List.filter_cons, hx]
    · rw [filter_orderedInsert_of_key_ne key c x hx, ih]
      simp [List.filter_cons, hx]

/-- C4 counterexample: two flights with equal utility where the earlier
result is more expensive.  The screens' sort keeps them in original order,
while the claimed ranking (ties broken by ascending price) would swap them:
the displayed ranking does not break utility ties by ascending price. -/
theorem ranking_no_price_tiebreak_cex :
    sortedResultsScore [cexFlightA, cexFlightB] = [cexFlightA, cexFlightB] ∧
    specRankingFlights [cexFlightA, cexFlightB] = [cexFlightB, cexFlightA] ∧
    scoreKey cexFlightA = scoreKey cexFlightB ∧
    cexFlightB.price < cexFlightA.price ∧
    sortedResultsScore [cexFlightA, cexFlightB] ≠
      specRankingFlights [cexFlightA, cexFlightB] := by
  refine ⟨?_, ?_, by decide, by decide, ?_⟩ <;> decide

/-- C4 amended: in `score` mode both screens order candidates by utility
(`total_utility || 0` resp. `total_score || 0`) non-increasingly, and the
sort is stable — all ties, including candidates that differ in price, keep
the collaborator-assigned original order; price is not consulted at all. -/
theorem ranking_stable_desc_utility (l : List FlightR) (lh : List HotelR) :
    (sortedResultsScore l).Perm l ∧
    List.Pairwise (keyDescRel scoreKey) (sortedResultsScore l) ∧
    (∀ c : ℚ, (sortedResultsScore l).filter (fun f => decide (scoreKey f = c)) =
      l.filter (fun f => decide (scoreKey f = c))) ∧
    (hotelSortedResultsScore lh).Perm lh ∧
    List.Pairwise (keyDescRel hotelScoreKey) (hotelSortedResultsScore lh) ∧
    (∀ c : ℚ, (hotelSortedResultsScore lh).filter (fun h => decide (hotelScoreKey h = c)) =
      lh.filter (fun h => decide (hotelScoreKey h = c))) := by
  refine ⟨List.perm_insertionSort _ l, ?_, fun c => filter_insertionSort_key _ c l,
    List.perm_insertionSort _ lh, ?_, fun c => filter_insertionSort_key _ c lh⟩
  · exact List.sorted_insertionSort _ l
  · exact List.sorted_insertionSort _ lh

/-- C5: whenever the computed breakdown reports the budget constraint as
violated, the recommendation tier is poor, regardless of the goal profile,
the component scores and the total utility (spec-modelled engine). -/
theorem budget_violation_forces_poor
    (g : GoalProfile) (c : FlightCandidate) (pr dr : ℚ)
    (h : (score g c pr dr).budgetConstraintMetVal = false) :
    (score g c pr dr).recommendationVal = Tier.poor := by
  simp only [score] at h ⊢
  rw [h, recommendation, if_pos rfl]

/-- C5 witness: a flight priced 600 against a 500 budget. -/
theorem budget_violation_forces_poor_witness :
    (score ⟨some 500, some 300, 1 / 2, 1 / 5, 3 / 10⟩ ⟨600, 300, 0⟩ 0 0).budgetConstraintMetVal = false ∧
    (score ⟨some 500, some 300, 1 / 2, 1 / 5, 3 / 10⟩ ⟨600, 300, 0⟩ 0 0).recommendationVal = Tier.poor :=
  ⟨by decide, budget_violation_forces_poor _ _ _ _ (by decide)⟩

/-- Sanity check of the spec-modelled engine against the section-8 scenario:
price 450 under a 500 budget, ideal duration, direct flight, default weights
give total utility 0.7 and tier good. -/
theorem score_spec_scenario_sanity :
    (score ⟨some 500, some 300, 1 / 2, 1 / 5, 3 / 10⟩ ⟨450, 300, 0⟩ 0 0).totalUtilityVal = 7 / 10 ∧
    (score ⟨some 500, some 300, 1 / 2, 1 / 5, 3 / 10⟩ ⟨450, 300, 0⟩ 0 0).recommendationVal = Tier.good := by
  constructor
  · simp only [score, priceScore, durationScore, stopsScore, clampQ]
    norm_num
  · simp only [score, priceScore, durationScore, stopsScore, clampQ, budgetConstraintMet,
      recommendation]
    norm_num

/-- C6 counterexample: with origin already extracted and a successful
extraction turn that supplies only the destination, the origin is gone
afterwards — the client replaces the extracted set wholesale instead of
merging field-wise. -/
theorem extraction_replace_not_merge_cex :
    (let priorSt : ChatState :=
       ⟨[], "", false, false, ⟨some "NYC", none, none, none, none, none, none⟩, false⟩
     let resp : ChatResponse :=
       ⟨true, "ok", some ⟨none, some "Paris", none, none, none, none, none⟩, some false, ""⟩
     ((sendMessage "to Paris please" (some resp) priorSt).1).extractedParams.origin = none ∧
     priorSt.extractedParams.origin = some "NYC" ∧
     (resp.extractedParams.getD emptyParams).origin = none) := by
  refine ⟨?_, rfl, rfl⟩
  rfl

/-- C6 amended: on every successful extraction turn the client stores exactly
the collaborator's returned extracted set (the empty set when the response
carries none), independently of the previously extracted fields — the
field-wise merge is delegated to the collaborator, which is sent the prior
set in the request body. -/
theorem extraction_replacement_semantics
    (st : ChatState) (text : String) (data : ChatResponse)
    (ht : ¬ jsTrim text = "") (hs : data.success = true) :
    ((sendMessage text (some data) st).1).extractedParams =
      data.extractedParams.getD emptyParams ∧
    ∀ p : ExtractedParams,
      ((sendMessage text (some data) { st with extractedParams := p }).1).extractedParams =
        data.extractedParams.getD emptyParams := by
  constructor
  · simp [sendMessage, ht, hs]
  · intro p
    simp [sendMessage, ht, hs]

/-- C6 amended witness. -/
theorem extraction_replacement_semantics_witness :
    ¬ (jsTrim "to Paris please" = "") ∧
    (⟨true, "ok", some ⟨none, some "Paris", none, none, none, none, none⟩, some false, ""⟩ : ChatResponse).success = true ∧
    (((sendMessage "to Paris please"
        (some ⟨true, "ok", some ⟨none, some "Paris", none, none, none, none, none⟩, some false, ""⟩)
        ⟨[], "", false, false, ⟨some "NYC", none, none, none, none, none, none⟩, false⟩).1).extractedParams =
      (some (⟨none, some "Paris", none, none, none, none, none⟩ : ExtractedParams)).getD emptyParams ∧
     ∀ p : ExtractedParams,
      ((sendMessage "to Paris please"
        (some ⟨true, "ok", some ⟨none, some "Paris", none, none, none, none, none⟩, some false, ""⟩)
        { (⟨[], "", false, false, ⟨some "NYC", none, none, none, none, none, none⟩, false⟩ : ChatState) with
            extractedParams := p }).1).extractedParams =
        (some (⟨none, some "Paris", none, none, none, none, none⟩ : ExtractedParams)).getD emptyParams) :=
  ⟨by decide, rfl,
   extraction_replacement_semantics
     ⟨[], "", false, false, ⟨some "NYC", none, none, none, none, none, none⟩, false⟩
     "to Paris please"
     ⟨true, "ok", some ⟨none, some "Paris", none, none, none, none, none⟩, some false, ""⟩
     (by decide) rfl⟩

/-- C7 counterexample: a network failure during extraction does change the
conversation state — the submitted user turn and an error notice are
appended to the turn list. -/
theorem network_failure_mutates_turns_cex :
    ((sendMessage "hello" none ⟨[], "", false, false, emptyParams, false⟩).1).messages ≠
      ([] : List ChatMessage) := by
  decide

/-- C7 amended: when the extraction call fails, the extracted fields and the
completeness flag are unchanged (no partial extraction is applied) and the
caller can retry, but the turn list does change: it gains the submitted user
message and the fixed network-error notice. -/
theorem network_failure_preserves_extraction
    (st : ChatState) (text : String) (ht : ¬ jsTrim text = "") :
    ((sendMessage text none st).1).extractedParams = st.extractedParams ∧
    ((sendMessage text none st).1).paramsComplete = st.paramsComplete ∧
    ((sendMessage text none st).1).messages =
      st.messages ++ [⟨Role.user, jsTrim text⟩, ⟨Role.assistant, networkErrorReply⟩] ∧
    (sendMessage text none st).2 = SendEffect.chatRequest := by
  refine ⟨?_, ?_, ?_, ?_⟩ <;> simp [sendMessage, ht]

/-- C7 amended witness. -/
theorem network_failure_preserves_extraction_witness :
    ¬ (jsTrim "hello" = "") ∧
    (((sendMessage "hello" none ⟨[], "", false, false, emptyParams, true⟩).1).extractedParams =
      (⟨[], "", false, false, emptyParams, true⟩ : ChatState).extractedParams ∧
     ((sendMessage "hello" none ⟨[], "", false, false, emptyParams, true⟩).1).paramsComplete =
      (⟨[], "", false, false, emptyParams, true⟩ : ChatState).paramsComplete ∧
     ((sendMessage "hello" none ⟨[], "", false, false, emptyParams, true⟩).1).messages =
      (⟨[], "", false, false, emptyParams, true⟩ : ChatState).messages ++
        [⟨Role.user, jsTrim "hello"⟩, ⟨Role.assistant, networkErrorReply⟩] ∧
     (sendMessage "hello" none ⟨[], "", false, false, emptyParams, true⟩).2 =
      SendEffect.chatRequest) :=
  ⟨by decide,
   network_failure_preserves_extraction ⟨[], "", false, false, emptyParams, true⟩ "hello"
     (by decide)⟩

/-- C8 counterexample: a whitespace-only utterance is not rejected with any
error — `sendMessage` silently returns, leaving the state untouched and
producing no error value, no error message and no request. -/
theorem empty_utterance_silent_noop_cex :
    sendMessage "   " none ⟨[], "", false, false, emptyParams, false⟩ =
      (⟨[], "", false, false, emptyParams, false⟩, SendEffect.noRequest) := by
  rfl

/-- C8 amended: for every empty or whitespace-only utterance no network
request is issued (the guard runs before the fetch) and the state is
completely unchanged; the input is silently ignored rather than rejected
with an EmptyInput error. -/
theorem empty_utterance_no_request
    (st : ChatState) (text : String) (result : Option ChatResponse)
    (ht : jsTrim text = "") :
    sendMessage text result st = (st, SendEffect.noRequest) := by
  simp [sendMessage, ht]

/-- C8 amended witness. -/
theorem empty_utterance_no_request_witness :
    jsTrim "   " = "" ∧
    sendMessage "   " (some ⟨true, "ok", none, none, ""⟩)
        ⟨[], "", false, false, emptyParams, true⟩ =
      (⟨[], "", false, false, emptyParams, true⟩, SendEffect.noRequest) :=
  ⟨by decide,
   empty_utterance_no_request ⟨[], "", false, false, emptyParams, true⟩ "   "
     (some ⟨true, "ok", none, none, ""⟩) (by decide)⟩

/-- Shape of a single `handleConfirmPlan` call: exactly one planning request,
`paramsComplete` untouched, `planning` reset by the `finally` block. -/
theorem handleConfirmPlan_shape (r : Option PlanResponse) (st : ChatState) :
    (handleConfirmPlan r st).2.1 = 1 ∧
    (handleConfirmPlan r st).1.paramsComplete = st.paramsComplete ∧
    (handleConfirmPlan r st).1.planning = false := by
  cases r with
  | none => simp [handleConfirmPlan]
  | some data =>
    by_cases h : (data.success && data.planningResult.isSome) = true
    · simp [handleConfirmPlan, h]
    · simp [handleConfirmPlan, h]

/-- C9 counterexample: calling `handleConfirmPlan` a second time after the
first call completed issues a second planning request that succeeds exactly
like the first (the plan payload is delivered again) — there is no
InvalidTransition failure, and after the first call the confirm affordance is
shown again because `paramsComplete` stays true and `planning` is reset. -/
theorem double_confirm_two_orchestrator_calls_cex :
    (let st0 : ChatState := ⟨[], "", false, false, emptyParams, true⟩
     let resp : PlanResponse := ⟨true, some "plan", none⟩
     let r1 := handleConfirmPlan (some resp) st0
     let r2 := handleConfirmPlan (some resp) r1.1
     r1.2.1 = 1 ∧ r2.2.1 = 1 ∧ r1.2.1 + r2.2.1 = 2 ∧
     r1.1.paramsComplete = true ∧ confirmButtonShown r1.1 = true ∧
     r2.2.2 = some "plan") := by
  refine ⟨rfl, rfl, rfl, rfl, rfl, rfl⟩

/-- C9 amended: `handleConfirmPlan` has no state guard — every invocation,
including one issued after a previous confirm has already completed, makes
exactly one planning request and never fails with InvalidTransition; the only
protection against double submission is the UI hiding and disabling the
confirm button while `planning` is true, and since `paramsComplete` survives
a successful plan, the second invocation is again possible. -/
theorem confirm_unguarded_single_call
    (st : ChatState) (r1 r2 : Option PlanResponse) :
    (handleConfirmPlan r1 st).2.1 = 1 ∧
    (handleConfirmPlan r2 (handleConfirmPlan r1 st).1).2.1 = 1 ∧
    (handleConfirmPlan r1 st).2.1 + (handleConfirmPlan r2 (handleConfirmPlan r1 st).1).2.1 = 2 ∧
    (handleConfirmPlan r1 st).1.paramsComplete = st.paramsComplete ∧
    (handleConfirmPlan r1 st).1.planning = false := by
  obtain ⟨h1, h2, h3⟩ := handleConfirmPlan_shape r1 st
  obtain ⟨h4, _, _⟩ := handleConfirmPlan_shape r2 (handleConfirmPlan r1 st).1
  exact ⟨h1, h4, by rw [h1, h4], h2, h3⟩

/-- C10: every logout removes the three stored credential keys and resets the
in-memory auth state to unauthenticated with no error, and the result is the
same whether the server-side logout call succeeded or failed — the server
error is swallowed and never prevents the local clear. -/
theorem logout_clears_locally_despite_server_error
    (res : Except String Unit) (st : AuthState) (store : Storage) :
    (logout res st store).2 = clearStorage ∧
    (logout res st store).1.user = none ∧
    (logout res st store).1.tokens = none ∧
    (logout res st store).1.isAuthenticated = false ∧
    (logout res st store).1.error = none ∧
    (logout res st store).1.isLoading = st.isLoading ∧
    ∀ res2 : Except String Unit, logout res st store = logout res2 st store := by
  cases res <;>
    exact ⟨rfl, rfl, rfl, rfl, rfl, rfl, fun res2 => by cases res2 <;> rfl⟩

end Trip
